import Mathlib

/-!
Verification of the tax application's core: the progressive bracket
calculator (`CalculateTax`), the remote fetch with its error
classification (`doFetchTaxData`, `FetchTaxData`) and the circuit
breaker that guards the fetch.

Numbers: the Go source computes with `float64`.  We embed the arithmetic
in `ℚ`; the one place where float behaviour is not rational arithmetic is
the unguarded division `totalTax / salary` when `salary == 0` (the float
quotient is `NaN`, or `±Inf` when `totalTax ≠ 0`).  We model the result
of that division by `Option ℚ`: `none` stands for the non-finite float
value produced by a zero divisor, `some q` for the finite quotient.
-/

namespace TaxApp

/-- A tax bracket as in `models.TaxBracket`: `min`, `max` (0 = unbounded
top bracket) and `rate`, all `float64` in Go, embedded as `ℚ`. -/
structure TaxBracket where
  min : ℚ
  max : ℚ
  rate : ℚ
deriving DecidableEq, Repr

/-- Go's `math.Round`: round half away from zero. -/
def goRound (q : ℚ) : ℤ :=
  if q < 0 then ⌈q - 1/2⌉ else ⌊q + 1/2⌋

/-- The taxable slice times rate that one bracket contributes once the
loop in `CalculateTax` has entered it (that is, once `bracket.Min <
salary`): with a maximum, the slice is capped at `Max - Min`; for the
unbounded top bracket (`Max == 0`) it is `salary - Min`. -/
def bracketTax (salary : ℚ) (b : TaxBracket) : ℚ :=
  if b.max ≠ 0 then
    (if salary ≤ b.max then salary - b.min else b.max - b.min) * b.rate
  else
    (salary - b.min) * b.rate

/-- The `for … range brackets` loop of `CalculateTax`: it breaks at the
first bracket with `salary <= bracket.Min`, otherwise accumulates
`taxableAmount * bracket.Rate`. -/
def taxLoop (salary : ℚ) : List TaxBracket → ℚ
  | [] => 0
  | b :: rest =>
      if salary ≤ b.min then 0
      else bracketTax salary b + taxLoop salary rest

/-- `TaxCalculator.CalculateTax` from the source: returns
`(totalTax, effectiveRate)`.  The source divides
`math.Round((totalTax/salary)*1000)/1000` unconditionally; when
`salary = 0` the float64 division yields a non-finite value (NaN or
±Inf), which we model as `none`.  There is no guard in the source. -/
def CalculateTax (salary : ℚ) (brackets : List TaxBracket) : ℚ × Option ℚ :=
  let totalTax := taxLoop salary brackets
  let effectiveRate : Option ℚ :=
    if salary = 0 then none
    else some ((goRound (totalTax / salary * 1000) : ℚ) / 1000)
  (totalTax, effectiveRate)

/-- A bracket the loop has entered contributes a non-negative amount when
its rate is non-negative and its `max` is 0 (unbounded) or at least its
`min`. -/
lemma bracketTax_nonneg {salary : ℚ} {b : TaxBracket} (hmin : b.min < salary)
    (hr : 0 ≤ b.rate) (hm : b.max = 0 ∨ b.min ≤ b.max) : 0 ≤ bracketTax salary b := by
  unfold bracketTax
  by_cases hmax : b.max ≠ 0
  · rw [if_pos hmax]
    rcases hm with h0 | hle
    · exact absurd h0 hmax
    · by_cases hsm : salary ≤ b.max
      · rw [if_pos hsm]; exact mul_nonneg (by linarith) hr
      · rw [if_neg hsm]; exact mul_nonneg (by linarith) hr
  · rw [if_neg hmax]
    exact mul_nonneg (by linarith) hr

/-- The loop's accumulated tax is non-negative when every bracket has a
non-negative rate and `max = 0` or `min ≤ max`. -/
lemma taxLoop_nonneg (salary : ℚ) : ∀ brackets : List TaxBracket,
    (∀ b ∈ brackets, 0 ≤ b.rate ∧ (b.max = 0 ∨ b.min ≤ b.max)) →
    0 ≤ taxLoop salary brackets
  | [], _ => le_refl 0
  | b :: rest, h => by
    unfold taxLoop
    by_cases hs : salary ≤ b.min
    · rw [if_pos hs]
    · rw [if_neg hs]
      have hb := h b (List.mem_cons_self b rest)
      have h1 := bracketTax_nonneg (not_le.mp hs) hb.1 hb.2
      have h2 := taxLoop_nonneg salary rest (fun x hx => h x (List.mem_cons_of_mem b hx))
      linarith

/-- One bracket's contribution is monotone in the salary once the rate is
non-negative (for any `max`). -/
lemma bracketTax_mono {s₁ s₂ : ℚ} {b : TaxBracket} (h12 : s₁ ≤ s₂)
    (hr : 0 ≤ b.rate) : bracketTax s₁ b ≤ bracketTax s₂ b := by
  unfold bracketTax
  by_cases hmax : b.max ≠ 0
  · rw [if_pos hmax, if_pos hmax]
    refine mul_le_mul_of_nonneg_right ?_ hr
    by_cases h1 : s₁ ≤ b.max
    · by_cases h2 : s₂ ≤ b.max
      · rw [if_pos h1, if_pos h2]; linarith
      · rw [if_pos h1, if_neg h2]; linarith
    · have h2 : ¬ s₂ ≤ b.max := fun h2 => h1 (le_trans h12 h2)
      rw [if_neg h1, if_neg h2]
  · rw [if_neg hmax, if_neg hmax]
    exact mul_le_mul_of_nonneg_right (by linarith) hr

/-- The loop's tax is monotone in the salary for a fixed bracket list whose
brackets all have non-negative rate and `max = 0` or `min ≤ max`. -/
lemma taxLoop_mono {s₁ s₂ : ℚ} (h12 : s₁ ≤ s₂) : ∀ brackets : List TaxBracket,
    (∀ b ∈ brackets, 0 ≤ b.rate ∧ (b.max = 0 ∨ b.min ≤ b.max)) →
    taxLoop s₁ brackets ≤ taxLoop s₂ brackets
  | [], _ => le_refl 0
  | b :: rest, h => by
    unfold taxLoop
    have hb := h b (List.mem_cons_self b rest)
    have hrest := fun x hx => h x (List.mem_cons_of_mem b hx)
    by_cases hs1 : s₁ ≤ b.min
    · rw [if_pos hs1]
      by_cases hs2 : s₂ ≤ b.min
      · rw [if_pos hs2]
      · rw [if_neg hs2]
        have h1 := bracketTax_nonneg (not_le.mp hs2) hb.1 hb.2
        have h2 := taxLoop_nonneg s₂ rest hrest
        linarith
    · rw [if_neg hs1, if_neg (fun hs2 => hs1 (le_trans h12 hs2))]
      have h1 := bracketTax_mono h12 hb.1
      have h2 := taxLoop_mono h12 rest hrest
      linarith

/-- C10: for every salary and every bracket list in which each bracket has
rate ≥ 0 and either max = 0 (unbounded) or max ≥ min, the tax returned by
`CalculateTax` is non-negative. -/
theorem calculateTax_tax_nonneg (salary : ℚ) (brackets : List TaxBracket)
    (h : ∀ b ∈ brackets, 0 ≤ b.rate ∧ (b.max = 0 ∨ b.min ≤ b.max)) :
    0 ≤ (CalculateTax salary brackets).1 := by
  simpa [CalculateTax] using taxLoop_nonneg salary brackets h

/-- Witness for C10 at a concrete input. -/
theorem calculateTax_tax_nonneg_witness :
    0 ≤ (CalculateTax 50000 [⟨0, 100000, 1/5⟩]).1 :=
  calculateTax_tax_nonneg 50000 [⟨0, 100000, 1/5⟩] (by
    intro b hb
    rw [List.mem_singleton] at hb
    subst hb
    exact ⟨by norm_num, Or.inr (by norm_num)⟩)

/-- C7 (amended): `CalculateTax` is idempotent for all inputs, and for a
fixed bracket list whose brackets all have rate ≥ 0 and max = 0 or
min ≤ max, the tax is monotonically non-decreasing in the salary. -/
theorem calculateTax_idem_mono :
    (∀ (salary : ℚ) (brackets : List TaxBracket),
      CalculateTax salary brackets = CalculateTax salary brackets) ∧
    (∀ brackets : List TaxBracket,
      (∀ b ∈ brackets, 0 ≤ b.rate ∧ (b.max = 0 ∨ b.min ≤ b.max)) →
      ∀ s₁ s₂ : ℚ, s₁ ≤ s₂ →
      (CalculateTax s₁ brackets).1 ≤ (CalculateTax s₂ brackets).1) := by
  refine ⟨fun _ _ => rfl, fun brackets h s₁ s₂ h12 => ?_⟩
  simpa [CalculateTax] using taxLoop_mono h12 brackets h

/-- Counterexample to C7 as stated: for the bracket list `[{min 100,
max 50, rate 1}]` (whose `max` is below its `min`), the tax decreases from
salary 90 (tax 0) to salary 150 (tax −50), so the tax is not monotone in
the salary for every fixed bracket list. -/
theorem calculateTax_mono_cex :
    (90 : ℚ) ≤ 150 ∧
    ¬ (CalculateTax 90 [⟨100, 50, 1⟩]).1 ≤ (CalculateTax 150 [⟨100, 50, 1⟩]).1 := by
  constructor
  · norm_num
  · norm_num [CalculateTax, taxLoop, bracketTax]

/-- The bracket list of the spec's worked examples. -/
def exampleBrackets : List TaxBracket :=
  [⟨0, 30000, 1/10⟩, ⟨30000, 70000, 2/10⟩, ⟨70000, 0, 3/10⟩]

/-- C4: on the spec's example brackets, salary 80000 yields tax 14000 and
effective rate 0.175, and salary 45000 yields tax 6000 and effective rate
0.133 (3-decimal rounding of 6000/45000). -/
theorem calculateTax_examples :
    CalculateTax 80000 exampleBrackets = (14000, some (175/1000)) ∧
    CalculateTax 45000 exampleBrackets = (6000, some (133/1000)) := by
  constructor <;>
    norm_num [exampleBrackets, CalculateTax, taxLoop, bracketTax, goRound]

/-- C2's failing input, evaluated: with salary 0 the source performs the
division `totalTax / salary` with a zero divisor, so the float64 effective
rate is non-finite (NaN), modelled as `none` — not 0 as the claim states.
Shown both on a bracket list and on the empty list. -/
theorem calculateTax_zero_salary_nan :
    (CalculateTax 0 [⟨0, 100000, 1/5⟩]).2 = none ∧ (CalculateTax 0 []).2 = none := by
  constructor <;> simp [CalculateTax]

/-- C8 (amended): for a non-empty bracket list ordered ascending by min and
a nonzero salary strictly below the lowest bracket's min, `CalculateTax`
returns tax 0 and effective rate 0. -/
theorem calculateTax_below_lowest (salary : ℚ) (b : TaxBracket) (rest : List TaxBracket)
    (hsorted : List.Chain' (fun x y : TaxBracket => x.min ≤ y.min) (b :: rest))
    (hbelow : salary < b.min) (hs0 : salary ≠ 0) :
    CalculateTax salary (b :: rest) = (0, some 0) := by
  have ht : taxLoop salary (b :: rest) = 0 := by
    unfold taxLoop
    rw [if_pos (le_of_lt hbelow)]
  norm_num [CalculateTax, ht, hs0, goRound]

/-- Witness for C8 at the claim's own example: brackets
`[{1000,30000,0.1},{30000,70000,0.2}]` and salary 500. -/
theorem calculateTax_below_lowest_witness :
    CalculateTax 500 [⟨1000, 30000, 1/10⟩, ⟨30000, 70000, 2/10⟩] = (0, some 0) :=
  calculateTax_below_lowest 500 ⟨1000, 30000, 1/10⟩ [⟨30000, 70000, 2/10⟩]
    (by norm_num [List.chain'_cons]) (by norm_num) (by norm_num)

/-- Counterexample to C8 as stated: salary 0 is strictly below the lowest
min of the claim's own ascending bracket list, yet the effective rate is
the non-finite float (modelled `none`), not 0, because the source divides
by the zero salary. -/
theorem calculateTax_below_lowest_cex :
    (CalculateTax 0 [⟨1000, 30000, 1/10⟩, ⟨30000, 70000, 2/10⟩]).2 ≠ some 0 := by
  simp [CalculateTax]

/-! ## Circuit breaker

Modelled from the spec: the breaker implementation lives in the
third-party `gobreaker` dependency, not in this repository; only its
configuration (`NewTaxCalculatorWithFullConfig`, in particular the
`ReadyToTrip` closure, which is source code) and its call sites are here.
The state machine below follows the spec's §4.1 sequential description:
Closed counts completions and trips to Open after a failure when the
`ReadyToTrip` condition holds; Open rejects without invoking the
operation until `timeout` seconds have passed since `openedAt`, then
admits the next call as a Half-Open trial; Half-Open rejects trials
beyond `maxHalfOpenReqs`, reopens on a failed trial, and closes once
`maxHalfOpenReqs` trials succeed.  Every transition goes through
`setState`, which resets the Counts and emits a transition event. -/

/-- `models.CircuitBreakerConfig` from the source. -/
structure CircuitBreakerConfig where
  requestThreshold : Nat
  failureRatio : ℚ
  timeout : Nat
  maxHalfOpenReqs : Nat
deriving DecidableEq, Repr

/-- The three breaker states. -/
inductive BreakerState where
  | closed
  | opened
  | halfOpen
deriving DecidableEq, Repr

/-- The aggregate Counts: requests, successes and failures accumulated
since the last state transition. -/
structure Counts where
  requests : Nat
  successes : Nat
  failures : Nat
deriving DecidableEq, Repr

/-- The breaker's lock-protected state. -/
structure Breaker where
  state : BreakerState
  counts : Counts
  openedAt : Nat
deriving DecidableEq, Repr

/-- A state-change notification `(from, to)`, carrying the Counts as they
stand immediately after the transition. -/
structure TransEvent where
  fromState : BreakerState
  toState : BreakerState
  countsAfter : Counts
deriving DecidableEq, Repr

/-- What one `Execute` call did: rejected because the circuit is open
(operation never invoked), rejected because the half-open trial cap is
reached (operation never invoked), or completed with the wrapped
operation's success flag. -/
inductive ExecOutcome where
  | rejectedOpen
  | rejectedTooMany
  | completed (success : Bool)
deriving DecidableEq, Repr

/-- The initial breaker: Closed with zero Counts. -/
def initBreaker : Breaker := ⟨BreakerState.closed, ⟨0, 0, 0⟩, 0⟩

/-- Every transition resets the Counts to zero, records `openedAt = now`
when entering Open, and emits the state-change event. -/
def setState (b : Breaker) (s : BreakerState) (now : Nat) : Breaker × TransEvent :=
  let b' : Breaker :=
    ⟨s, ⟨0, 0, 0⟩, if s = BreakerState.opened then now else b.openedAt⟩
  (b', ⟨b.state, s, b'.counts⟩)

/-- The `ReadyToTrip` closure from `NewTaxCalculatorWithFullConfig`:
trip when `requests ≥ requestThreshold` and the failure ratio
`failures / requests` is at least `failureRatio`. -/
def readyToTrip (cfg : CircuitBreakerConfig) (c : Counts) : Bool :=
  decide (cfg.requestThreshold ≤ c.requests) &&
    decide (cfg.failureRatio ≤ (c.failures : ℚ) / (c.requests : ℚ))

/-- A completion in the Closed state: increment `requests` and the
matching outcome counter; after a failure, trip to Open when
`readyToTrip` holds. -/
def onClosedResult (cfg : CircuitBreakerConfig) (b : Breaker) (now : Nat)
    (success : Bool) : Breaker × List TransEvent :=
  let c := b.counts
  if success then
    ({ b with counts := ⟨c.requests + 1, c.successes + 1, c.failures⟩ }, [])
  else
    let c' : Counts := ⟨c.requests + 1, c.successes, c.failures + 1⟩
    if readyToTrip cfg c' then
      let se := setState { b with counts := c' } BreakerState.opened now
      (se.1, [se.2])
    else
      ({ b with counts := c' }, [])

/-- A completed Half-Open trial: a failure reopens the circuit at once;
a success is counted and, when `maxHalfOpenReqs` successes are reached,
the breaker closes. -/
def onHalfOpenResult (cfg : CircuitBreakerConfig) (b : Breaker) (now : Nat)
    (success : Bool) : Breaker × List TransEvent :=
  if success then
    let c := b.counts
    let c' : Counts := ⟨c.requests + 1, c.successes + 1, c.failures⟩
    if cfg.maxHalfOpenReqs ≤ c'.successes then
      let se := setState { b with counts := c' } BreakerState.closed now
      (se.1, [se.2])
    else
      ({ b with counts := c' }, [])
  else
    let se := setState b BreakerState.opened now
    (se.1, [se.2])

/-- One `Execute` call at time `now`; `opSuccess` is what the wrapped
operation would report if invoked (it is consulted only on the completed
paths).  Returns the new breaker, the call's outcome and the transition
events emitted. -/
def execute (cfg : CircuitBreakerConfig) (b : Breaker) (now : Nat)
    (opSuccess : Bool) : Breaker × ExecOutcome × List TransEvent :=
  match b.state with
  | BreakerState.closed =>
      let r := onClosedResult cfg b now opSuccess
      (r.1, ExecOutcome.completed opSuccess, r.2)
  | BreakerState.opened =>
      if b.openedAt + cfg.timeout ≤ now then
        let se := setState b BreakerState.halfOpen now
        let r := onHalfOpenResult cfg se.1 now opSuccess
        (r.1, ExecOutcome.completed opSuccess, se.2 :: r.2)
      else
        (b, ExecOutcome.rejectedOpen, [])
  | BreakerState.halfOpen =>
      if cfg.maxHalfOpenReqs ≤ b.counts.requests then
        (b, ExecOutcome.rejectedTooMany, [])
      else
        let r := onHalfOpenResult cfg b now opSuccess
        (r.1, ExecOutcome.completed opSuccess, r.2)

/-- A run of `Execute` calls, each given as `(now, opSuccess)`; returns
the final breaker and all transition events in order. -/
def runTrace (cfg : CircuitBreakerConfig) (b : Breaker) :
    List (Nat × Bool) → Breaker × List TransEvent
  | [] => (b, [])
  | step :: rest =>
      let r := execute cfg b step.1 step.2
      let next := runTrace cfg r.1 rest
      (next.1, r.2.2 ++ next.2)

/-- The breaker configuration `NewTaxCalculatorWithConfig` installs:
requestThreshold 5, failureRatio 0.5, timeout 60 s, maxHalfOpenReqs 100. -/
def defaultCBConfig : CircuitBreakerConfig := ⟨5, 1/2, 60, 100⟩

/-- A sequence of calls at time 0 whose operation results are the given
booleans (`false` = failure). -/
def runCalls (cfg : CircuitBreakerConfig) (b : Breaker) (results : List Bool) : Breaker :=
  (runTrace cfg b (results.map (fun r => (0, r)))).1

/-- Counterexample to C1 as stated: the 5-call sequence
fail, fail, fail, success, success has 3 ≥ 3 failures, yet the breaker is
not Open afterwards (the trip condition is only evaluated after a
failure, and the last failure arrives while `requests = 3 < 5`), and the
6th call completes — the wrapped operation is invoked. -/
theorem breakerTrips_cex :
    ([false, false, false, true, true] : List Bool).length = 5 ∧
    3 ≤ ([false, false, false, true, true] : List Bool).count false ∧
    (runCalls defaultCBConfig initBreaker [false, false, false, true, true]).state ≠
      BreakerState.opened ∧
    (execute defaultCBConfig
        (runCalls defaultCBConfig initBreaker [false, false, false, true, true])
        0 true).2.1 = ExecOutcome.completed true := by
  refine ⟨by decide, by decide, ?_, ?_⟩
  · have h : (runCalls defaultCBConfig initBreaker [false, false, false, true, true]).state =
        BreakerState.closed := by
      norm_num [runCalls, runTrace, execute, onClosedResult, readyToTrip,
        defaultCBConfig, initBreaker, setState, onHalfOpenResult]
    rw [h]
    decide
  · norm_num [runCalls, runTrace, execute, onClosedResult, readyToTrip,
      defaultCBConfig, initBreaker, setState, onHalfOpenResult]

/-- C1 (amended): with requestThreshold 5 and failureRatio 0.5, after any
sequence of 5 completed calls of which at least 3 failed and whose last
call is a failure, the breaker is Open, and a 6th `Execute` call before
the timeout is rejected with the circuit-open outcome, leaving the
breaker unchanged and never invoking the wrapped operation (the result is
the same for every operation result `r`). -/
theorem breakerTrips (rs : List Bool) (h5 : rs.length = 5)
    (h3 : 3 ≤ rs.count false) (hl : rs.getLast? = some false) :
    (runCalls defaultCBConfig initBreaker rs).state = BreakerState.opened ∧
    ∀ r : Bool,
      execute defaultCBConfig (runCalls defaultCBConfig initBreaker rs) 0 r =
        (runCalls defaultCBConfig initBreaker rs, ExecOutcome.rejectedOpen, []) := by
  rcases rs with _ | ⟨a, _ | ⟨b, _ | ⟨c, _ | ⟨d, _ | ⟨e, _ | ⟨f, rs⟩⟩⟩⟩⟩⟩ <;> simp_all
  revert h3 hl
  cases a <;> cases b <;> cases c <;> cases d <;> cases e <;>
    norm_num [runCalls, runTrace, execute, onClosedResult, readyToTrip,
      defaultCBConfig, initBreaker, setState, onHalfOpenResult]

/-- Witness for C1 (amended) at the concrete sequence
fail, fail, success, fail, fail. -/
theorem breakerTrips_witness :
    (runCalls defaultCBConfig initBreaker [false, false, true, false, false]).state =
      BreakerState.opened ∧
    ∀ r : Bool,
      execute defaultCBConfig
          (runCalls defaultCBConfig initBreaker [false, false, true, false, false]) 0 r =
        (runCalls defaultCBConfig initBreaker [false, false, true, false, false],
          ExecOutcome.rejectedOpen, []) :=
  breakerTrips [false, false, true, false, false] (by decide) (by decide) (by decide)

/-- The aggregate-Counts invariant of the spec's §3. -/
def countsConsistent (b : Breaker) : Prop :=
  b.counts.requests = b.counts.successes + b.counts.failures

lemma onClosedResult_consistent (cfg : CircuitBreakerConfig) (b : Breaker) (now : Nat)
    (s : Bool) (h : countsConsistent b) :
    countsConsistent (onClosedResult cfg b now s).1 := by
  unfold countsConsistent at h ⊢
  unfold onClosedResult setState
  cases s <;> dsimp <;> (try split) <;> (try dsimp) <;> omega

lemma onHalfOpenResult_consistent (cfg : CircuitBreakerConfig) (b : Breaker) (now : Nat)
    (s : Bool) (h : countsConsistent b) :
    countsConsistent (onHalfOpenResult cfg b now s).1 := by
  unfold countsConsistent at h ⊢
  unfold onHalfOpenResult setState
  cases s <;> dsimp <;> (try split) <;> (try dsimp) <;> omega

lemma execute_consistent (cfg : CircuitBreakerConfig) (b : Breaker) (now : Nat)
    (r : Bool) (h : countsConsistent b) :
    countsConsistent (execute cfg b now r).1 := by
  unfold execute
  cases hb : b.state <;> dsimp
  · exact onClosedResult_consistent cfg b now r h
  · split
    · exact onHalfOpenResult_consistent cfg _ now r (by simp [setState, countsConsistent])
    · exact h
  · split
    · exact h
    · exact onHalfOpenResult_consistent cfg b now r h

lemma execute_events_zero (cfg : CircuitBreakerConfig) (b : Breaker) (now : Nat)
    (r : Bool) : ∀ e ∈ (execute cfg b now r).2.2, e.countsAfter = ⟨0, 0, 0⟩ := by
  cases hb : b.state <;> cases r <;>
    simp only [execute, onClosedResult, onHalfOpenResult, setState, hb] <;>
    (repeat' split) <;> simp

lemma runTrace_invariant (cfg : CircuitBreakerConfig) :
    ∀ (steps : List (Nat × Bool)) (b : Breaker), countsConsistent b →
    countsConsistent (runTrace cfg b steps).1 ∧
    ∀ e ∈ (runTrace cfg b steps).2, e.countsAfter = ⟨0, 0, 0⟩
  | [], b, h => ⟨h, by simp [runTrace]⟩
  | step :: rest, b, h => by
    have h1 := execute_consistent cfg b step.1 step.2 h
    have h2 := execute_events_zero cfg b step.1 step.2
    have ih := runTrace_invariant cfg rest (execute cfg b step.1 step.2).1 h1
    unfold runTrace
    refine ⟨ih.1, ?_⟩
    intro e he
    dsimp at he
    rw [List.mem_append] at he
    rcases he with he | he
    · exact h2 e he
    · exact ih.2 e he

/-- C6: in every breaker state reachable from the initial breaker by a
sequence of `Execute` calls, `requests = successes + failures`; and the
Counts recorded at every state transition the run emits are zero (every
transition resets them). -/
theorem breakerInvariants (cfg : CircuitBreakerConfig) (steps : List (Nat × Bool)) :
    (runTrace cfg initBreaker steps).1.counts.requests =
      (runTrace cfg initBreaker steps).1.counts.successes +
      (runTrace cfg initBreaker steps).1.counts.failures ∧
    ∀ e ∈ (runTrace cfg initBreaker steps).2, e.countsAfter = ⟨0, 0, 0⟩ :=
  runTrace_invariant cfg steps initBreaker rfl

/-- Witness for C6: a run whose first failed call trips a
threshold-1 breaker, emitting a Closed→Open transition with zeroed
Counts. -/
theorem breakerInvariants_witness :
    ((runTrace ⟨1, 0, 60, 1⟩ initBreaker [(0, false)]).1.counts.requests =
      (runTrace ⟨1, 0, 60, 1⟩ initBreaker [(0, false)]).1.counts.successes +
      (runTrace ⟨1, 0, 60, 1⟩ initBreaker [(0, false)]).1.counts.failures) ∧
    (⟨BreakerState.closed, BreakerState.opened, ⟨0, 0, 0⟩⟩ : TransEvent).countsAfter =
      ⟨0, 0, 0⟩ :=
  ⟨(breakerInvariants ⟨1, 0, 60, 1⟩ [(0, false)]).1,
   (breakerInvariants ⟨1, 0, 60, 1⟩ [(0, false)]).2
     ⟨BreakerState.closed, BreakerState.opened, ⟨0, 0, 0⟩⟩
     (by norm_num [runTrace, execute, onClosedResult, readyToTrip, initBreaker, setState])⟩

/-! ## Remote fetch

`doFetchTaxData` embedded from the source.  The HTTP transport and
`encoding/json` are external collaborators: a call's observable input is
either a transport failure or a response `(statusCode, body)`, and the
two `json.Unmarshal` calls are passed in as parser functions
(`parseErrors` for the `{errors: [...]}` shape, `parseTaxResponse` for
the `{tax_brackets: [...]}` shape; `none` = the unmarshal errors).
Errors are the `fmt.Errorf` strings the source builds. -/

/-- `models.TaxCalcError` from the source. -/
structure TaxCalcError where
  code : String
  field : String
  message : String
deriving DecidableEq, Repr

/-- `models.TaxCalculatorResponse` from the source. -/
structure TaxCalculatorResponse where
  taxBrackets : List TaxBracket
deriving DecidableEq, Repr

/-- What the HTTP client hands back: a transport failure (modelling
`client.Do` returning an error) or a response with a status code and a
body. -/
inductive HttpResult where
  | failure (msg : String)
  | response (statusCode : Nat) (body : String)
deriving DecidableEq, Repr

/-- `TaxCalculator.doFetchTaxData` from the source: transport failures
propagate; a status other than 200 (`http.StatusOK`) is classified via
the error body; a 200 body is parsed and an empty `tax_brackets` array is
an error. -/
def doFetchTaxData (parseErrors : String → Option (List TaxCalcError))
    (parseTaxResponse : String → Option TaxCalculatorResponse)
    (r : HttpResult) : Except String TaxCalculatorResponse :=
  match r with
  | HttpResult.failure msg => Except.error msg
  | HttpResult.response status body =>
      if status ≠ 200 then
        if body.length > 0 then
          match parseErrors body with
          | some errs =>
              if errs.length > 0 then
                Except.error ("tax calculator service error: " ++
                  String.intercalate "; "
                    (errs.map (fun e => e.code ++ ": " ++ e.message)))
              else
                Except.error ("tax calculator service returned: " ++
                  toString status ++ " - Details: " ++ body)
          | none =>
              Except.error ("tax calculator service returned: " ++
                toString status ++ " - Details: " ++ body)
        else
          Except.error ("tax calculator service returned error code: " ++
            toString status)
      else
        match parseTaxResponse body with
        | none => Except.error "failed to parse tax calculator response"
        | some tr =>
            if tr.taxBrackets.length = 0 then
              Except.error "no tax brackets returned from tax calculator"
            else
              Except.ok tr

/-- The `TaxCalculator` receiver: `cb` is set iff the breaker was enabled
at construction (`NewTaxCalculatorWithFullConfig`). -/
structure TaxCalculator where
  cb : Option Breaker
  cbEnabled : Bool

/-- `TaxCalculator.FetchTaxData` from the source, as Go's
`(*TaxCalculatorResponse, error)` pair: `none` models a nil pointer/nil
error.  With the breaker enabled it runs the fetch through
`cb.Execute`, mapping `ErrOpenState`, `ErrTooManyRequests`, operation
errors and success exactly as the source does; otherwise it calls the
fetch directly.  Returns the updated receiver alongside. -/
def FetchTaxData (cfg : CircuitBreakerConfig) (tc : TaxCalculator) (now : Nat)
    (parseErrors : String → Option (List TaxCalcError))
    (parseTaxResponse : String → Option TaxCalculatorResponse)
    (r : HttpResult) :
    TaxCalculator × Option TaxCalculatorResponse × Option String :=
  let inner := doFetchTaxData parseErrors parseTaxResponse r
  let direct : TaxCalculator × Option TaxCalculatorResponse × Option String :=
    match inner with
    | Except.error e => (tc, none, some ("tax calculator service error: " ++ e))
    | Except.ok resp => (tc, some resp, none)
  if tc.cbEnabled then
    match tc.cb with
    | some b =>
        let step := execute cfg b now inner.toBool
        let tc' : TaxCalculator := { tc with cb := some step.1 }
        match step.2.1 with
        | ExecOutcome.rejectedOpen =>
            (tc', none, some
              "tax calculator service is unavailable (circuit open): too many recent failures")
        | ExecOutcome.rejectedTooMany =>
            (tc', none, some
              "tax calculator service is unavailable: too many concurrent requests")
        | ExecOutcome.completed _ =>
            match inner with
            | Except.error e =>
                (tc', none, some ("tax calculator service error: " ++ e))
            | Except.ok resp => (tc', some resp, none)
    | none => direct
  else
    direct

/-- C9: `FetchTaxData` always returns exactly one of a non-nil response
or a non-nil error. -/
theorem fetchTaxData_exclusive (cfg : CircuitBreakerConfig) (tc : TaxCalculator)
    (now : Nat) (parseErrors : String → Option (List TaxCalcError))
    (parseTaxResponse : String → Option TaxCalculatorResponse) (r : HttpResult) :
    (((FetchTaxData cfg tc now parseErrors parseTaxResponse r).2.1.isSome ∧
      (FetchTaxData cfg tc now parseErrors parseTaxResponse r).2.2 = none) ∨
     ((FetchTaxData cfg tc now parseErrors parseTaxResponse r).2.1 = none ∧
      (FetchTaxData cfg tc now parseErrors parseTaxResponse r).2.2.isSome)) := by
  unfold FetchTaxData
  rcases hi : doFetchTaxData parseErrors parseTaxResponse r with e | resp <;>
    rcases tc.cbEnabled with _ | _ <;> rcases hcb : tc.cb with _ | b <;>
    simp [hi, hcb] <;>
    rcases (execute cfg b now _).2.1 with _ | _ | s <;> simp

/-- C5 (amended): a 200 response whose body parses to an empty
`tax_brackets` array always yields the empty-bracket-set error, never a
successful result. -/
theorem fetch_emptyBrackets (parseErrors : String → Option (List TaxCalcError))
    (parseTaxResponse : String → Option TaxCalculatorResponse)
    (status : Nat) (body : String) (tr : TaxCalculatorResponse)
    (h200 : status = 200) (hp : parseTaxResponse body = some tr)
    (hempty : tr.taxBrackets = []) :
    doFetchTaxData parseErrors parseTaxResponse (HttpResult.response status body) =
      Except.error "no tax brackets returned from tax calculator" := by
  subst h200
  simp [doFetchTaxData, hp, hempty]

/-- A parser for witnesses: the body "ok" parses to one bracket, the body
"empty" to an empty bracket array, anything else fails to parse. -/
def witnessTaxParser (body : String) : Option TaxCalculatorResponse :=
  if body = "ok" then some ⟨[⟨0, 100000, 1/5⟩]⟩
  else if body = "empty" then some ⟨[]⟩
  else none

/-- A parser for witnesses: the body "errs" parses to one structured
error, the body "noerrs" to an empty errors array, anything else fails to
parse. -/
def witnessErrParser (body : String) : Option (List TaxCalcError) :=
  if body = "errs" then some [⟨"E001", "salary", "salary is invalid"⟩]
  else if body = "noerrs" then some []
  else none

/-- Witness for C5: a 200 response whose body parses to zero brackets. -/
theorem fetch_emptyBrackets_witness :
    doFetchTaxData witnessErrParser witnessTaxParser (HttpResult.response 200 "empty") =
      Except.error "no tax brackets returned from tax calculator" :=
  fetch_emptyBrackets witnessErrParser witnessTaxParser 200 "empty" ⟨[]⟩
    rfl rfl rfl

/-- Counterexample to C5 as stated: a 201 response is 2xx and its body
parses to an empty `tax_brackets` array, yet the source (which tests
`StatusCode != http.StatusOK`, that is `≠ 200`) takes the non-200 error
path and returns the raw-body status error, not the empty-bracket-set
error. -/
theorem fetch_emptyBrackets_cex :
    witnessTaxParser "empty" = some ⟨[]⟩ ∧
    doFetchTaxData witnessErrParser witnessTaxParser (HttpResult.response 201 "empty") =
      Except.error "tax calculator service returned: 201 - Details: empty" ∧
    doFetchTaxData witnessErrParser witnessTaxParser (HttpResult.response 201 "empty") ≠
      Except.error "no tax brackets returned from tax calculator" := by
  refine ⟨rfl, rfl, fun h => ?_⟩
  have h2 : ("tax calculator service returned: 201 - Details: empty" : String) =
      "no tax brackets returned from tax calculator" := Except.error.inj h
  exact absurd h2 (by decide)

lemma length_pos_of_ne_empty {body : String} (hb : body ≠ "") : 0 < body.length := by
  rcases body with ⟨_ | ⟨c, cs⟩⟩
  · exact absurd rfl hb
  · simp [String.length]

/-- Counterexample to C3 as stated: a 201 response is 2xx, and its body
parses to a non-empty bracket sequence, yet the source (which tests
`StatusCode != http.StatusOK`, that is `≠ 200`) classifies it as an HTTP
status error instead of succeeding. -/
theorem fetch_statusClass_cex :
    witnessTaxParser "ok" = some ⟨[⟨0, 100000, 1/5⟩]⟩ ∧
    doFetchTaxData witnessErrParser witnessTaxParser (HttpResult.response 201 "ok") =
      Except.error "tax calculator service returned: 201 - Details: ok" :=
  ⟨rfl, rfl⟩

/-- C3 (amended): `doFetchTaxData` classifies a response as an HTTP
status error exactly when the status is not 200: a 200 response whose
body parses to a non-empty bracket sequence succeeds; a non-200 response
with a non-empty body parsing to a non-empty errors array yields the
joined "code: message" error; otherwise, with a non-empty body, the raw
body text; with an empty body, the bare status-code message; and a 200
response with an unparseable body yields the malformed-response error. -/
theorem fetch_statusClassification (pe : String → Option (List TaxCalcError))
    (pt : String → Option TaxCalculatorResponse) (status : Nat) (body : String) :
    (status = 200 → ∀ tr : TaxCalculatorResponse, pt body = some tr →
      tr.taxBrackets ≠ [] →
      doFetchTaxData pe pt (HttpResult.response status body) = Except.ok tr) ∧
    (status ≠ 200 → body ≠ "" → ∀ errs : List TaxCalcError, pe body = some errs →
      errs ≠ [] →
      doFetchTaxData pe pt (HttpResult.response status body) =
        Except.error ("tax calculator service error: " ++
          String.intercalate "; "
            (errs.map (fun e => e.code ++ ": " ++ e.message)))) ∧
    (status ≠ 200 → body ≠ "" → (pe body = none ∨ pe body = some []) →
      doFetchTaxData pe pt (HttpResult.response status body) =
        Except.error ("tax calculator service returned: " ++ toString status ++
          " - Details: " ++ body)) ∧
    (status ≠ 200 → body = "" →
      doFetchTaxData pe pt (HttpResult.response status body) =
        Except.error ("tax calculator service returned error code: " ++
          toString status)) ∧
    (status = 200 → pt body = none →
      doFetchTaxData pe pt (HttpResult.response status body) =
        Except.error "failed to parse tax calculator response") := by
  refine ⟨?_, ?_, ?_, ?_, ?_⟩
  · intro h200 tr hp hne
    subst h200
    simp [doFetchTaxData, hp, List.length_eq_zero, hne]
  · intro hs hb errs hp hne
    have hlen := length_pos_of_ne_empty hb
    simp [doFetchTaxData, hs, hlen, hp, List.length_pos, hne]
  · intro hs hb hp
    have hlen := length_pos_of_ne_empty hb
    rcases hp with hp | hp <;> simp [doFetchTaxData, hs, hlen, hp]
  · intro hs hb
    subst hb
    simp [doFetchTaxData, hs]
  · intro h200 hp
    subst h200
    simp [doFetchTaxData, hp]

/-- Witness for C3 (amended): all five classification branches at
concrete responses against the witness parsers. -/
theorem fetch_statusClassification_witness :
    doFetchTaxData witnessErrParser witnessTaxParser (HttpResult.response 200 "ok") =
      Except.ok ⟨[⟨0, 100000, 1/5⟩]⟩ ∧
    doFetchTaxData witnessErrParser witnessTaxParser (HttpResult.response 404 "errs") =
      Except.error "tax calculator service error: E001: salary is invalid" ∧
    doFetchTaxData witnessErrParser witnessTaxParser (HttpResult.response 404 "noerrs") =
      Except.error "tax calculator service returned: 404 - Details: noerrs" ∧
    doFetchTaxData witnessErrParser witnessTaxParser (HttpResult.response 500 "") =
      Except.error "tax calculator service returned error code: 500" ∧
    doFetchTaxData witnessErrParser witnessTaxParser (HttpResult.response 200 "junk") =
      Except.error "failed to parse tax calculator response" := by
  refine ⟨?_, ?_, ?_, ?_, ?_⟩
  · exact (fetch_statusClassification witnessErrParser witnessTaxParser 200 "ok").1
      rfl ⟨[⟨0, 100000, 1/5⟩]⟩ rfl (List.cons_ne_nil _ _)
  · exact (fetch_statusClassification witnessErrParser witnessTaxParser 404 "errs").2.1
      (by decide) (by decide) [⟨"E001", "salary", "salary is invalid"⟩] rfl
      (List.cons_ne_nil _ _)
  · exact (fetch_statusClassification witnessErrParser witnessTaxParser 404 "noerrs").2.2.1
      (by decide) (by decide) (Or.inr rfl)
  · exact (fetch_statusClassification witnessErrParser witnessTaxParser 500 "").2.2.2.1
      (by decide) rfl
  · exact (fetch_statusClassification witnessErrParser witnessTaxParser 200 "junk").2.2.2.2
      rfl rfl

end TaxApp
